import Mathlib

/-!
Shallow embedding of the rocket-token-bot price pipeline
(src/crypto_api.py and src/chart_generator.py).

Conventions of the embedding:
* Python floats are modelled as rationals (ℚ); exact real arithmetic.
* A network call is modelled by its observable outcome (`HttpResult`):
  either an exception (transport error, JSON decode error, float() error
  on a non-numeric field — all caught by the same `except` clause) or a
  response with a status code and the parsed fields the code inspects.
* A Python function that can return `None` is modelled with `Option`.
* Python truthiness of an `Option ℚ` value (`if price:`) is `truthy`:
  `None` and `0.0` are falsy, every other float is truthy.
* `random.uniform a b` is modelled as `uniform a b u` = `a + (b - a) * u`
  where `u` is one draw of the underlying random source; a draw lies in
  `[0, 1]`.
-/

namespace RocketBot

/-- Observable outcome of one `requests.get` call as the code sees it: an
exception anywhere in the provider body (transport error, JSON error,
`float()` failure), or a response with its status and parsed body. -/
inductive HttpResult (α : Type) where
  | exn : HttpResult α
  | response : ℕ → α → HttpResult α
deriving DecidableEq

/-- Fields of a Jupiter price response that `_get_jupiter_price` inspects:
whether `data` contains the token address, and the value of
`price_info.get('price', 0)` (`none` when the `price` key is missing, in
which case the code falls back to the default `0`). -/
structure JupiterBody where
  hasAddr : Bool
  price : Option ℚ
deriving DecidableEq

/-- Fields of a DexScreener response that `_get_dexscreener_price` inspects:
whether `pairs` is present and non-empty, and the first pair's
`priceUsd` (`none` when missing, defaulting to `0`). -/
structure DexBody where
  pairsNonempty : Bool
  priceUsd : Option ℚ
deriving DecidableEq

/-- Fields of a Birdeye response that `_get_birdeye_price` inspects:
whether `data` exists and contains `value`, and that value. -/
structure BirdBody where
  hasValue : Bool
  value : ℚ
deriving DecidableEq

/-- Embedding of `_get_jupiter_price` (src/crypto_api.py lines 61-84). -/
def get_jupiter_price : HttpResult JupiterBody → Option ℚ
  | .exn => none
  | .response status body =>
    if status = 200 then
      if body.hasAddr then some (body.price.getD 0) else none
    else none

/-- Embedding of `_get_dexscreener_price` (src/crypto_api.py lines 86-103). -/
def get_dexscreener_price : HttpResult DexBody → Option ℚ
  | .exn => none
  | .response status body =>
    if status = 200 then
      if body.pairsNonempty then some (body.priceUsd.getD 0) else none
    else none

/-- Embedding of `_get_birdeye_price` (src/crypto_api.py lines 105-127). -/
def get_birdeye_price : HttpResult BirdBody → Option ℚ
  | .exn => none
  | .response status body =>
    if status = 200 then
      if body.hasValue then some body.value else none
    else none

/-- Python truthiness of a provider result (`if price:`): `None` and `0.0`
are falsy, any other float is truthy. -/
def truthy : Option ℚ → Bool
  | none => false
  | some p => decide (p ≠ 0)

/-- Embedding of `get_current_price` (src/crypto_api.py lines 36-59).
The second component counts how many providers were invoked before the
function returned (1 = only Jupiter, 2 = Jupiter then DexScreener,
3 = all three), making the short-circuit behaviour observable. -/
def get_current_price (j : HttpResult JupiterBody) (d : HttpResult DexBody)
    (b : HttpResult BirdBody) : Option ℚ × ℕ :=
  let pj := get_jupiter_price j
  if truthy pj then (pj, 1)
  else
    let pd := get_dexscreener_price d
    if truthy pd then (pd, 2)
    else
      let pb := get_birdeye_price b
      if truthy pb then (pb, 3) else (none, 3)

/-- Provider failure for Jupiter in the sense of the spec: transport error
(or any exception), non-2xx status, or a missing expected field (either
the address entry under `data`, or the `price` key — the latter makes the
helper return the falsy default `0.0`). -/
def jupiterFailed : HttpResult JupiterBody → Prop
  | .exn => True
  | .response status body => status ≠ 200 ∨ body.hasAddr = false ∨ body.price = none

/-- Provider failure for DexScreener: exception, non-2xx status, missing or
empty `pairs`, or missing `priceUsd` (falsy default `0.0`). -/
def dexFailed : HttpResult DexBody → Prop
  | .exn => True
  | .response status body => status ≠ 200 ∨ body.pairsNonempty = false ∨ body.priceUsd = none

/-- Provider failure for Birdeye: exception, non-2xx status, or a missing
`data`/`value` field. -/
def birdFailed : HttpResult BirdBody → Prop
  | .exn => True
  | .response status body => status ≠ 200 ∨ body.hasValue = false

instance : DecidablePred jupiterFailed := by
  intro r; cases r <;> simp [jupiterFailed] <;> infer_instance

instance : DecidablePred dexFailed := by
  intro r; cases r <;> simp [dexFailed] <;> infer_instance

instance : DecidablePred birdFailed := by
  intro r; cases r <;> simp [birdFailed] <;> infer_instance

/-! ### Synthetic price history (src/crypto_api.py lines 151-246)

Timestamps are modelled as integer seconds relative to an arbitrary
origin; `timedelta(hours=i)` is `i * 3600` seconds and `timedelta(days=i)`
is `i * 86400` seconds. -/

/-- Range of descending indices `range(n-1, -1, -1)` = `[n-1, ..., 0]`. -/
def descRange (n : ℕ) : List ℕ :=
  (List.range n).reverse

/-- Embedding of `_get_time_points` (src/crypto_api.py lines 173-194):
one timestamp `now - i * interval` for each `i` going down from
`count - 1` to `0`, so the list ends at `now`. -/
def get_time_points (timeframe : String) (now : ℤ) : List ℤ :=
  if timeframe = "1d" then (descRange 24).map (fun i : ℕ => now - (i : ℤ) * 3600)
  else if timeframe = "7d" then (descRange 168).map (fun i : ℕ => now - (i : ℤ) * 3600)
  else if timeframe = "30d" then (descRange 30).map (fun i : ℕ => now - (i : ℤ) * 86400)
  else if timeframe = "90d" then (descRange 90).map (fun i : ℕ => now - (i : ℤ) * 86400)
  else if timeframe = "1y" then (descRange 365).map (fun i : ℕ => now - (i : ℤ) * 86400)
  else (descRange 168).map (fun i : ℕ => now - (i : ℤ) * 3600)

/-- Embedding of `volatility_map.get(timeframe, 0.05)`
(src/crypto_api.py lines 200-209). -/
def volatility_map (timeframe : String) : ℚ :=
  if timeframe = "1d" then 2/100
  else if timeframe = "7d" then 3/100
  else if timeframe = "30d" then 5/100
  else if timeframe = "90d" then 7/100
  else if timeframe = "1y" then 10/100
  else 5/100

/-- Model of `random.uniform a b` applied to one draw `u` of the
underlying random source: `a + (b - a) * u`; a draw lies in `[0, 1]`. -/
def uniform (a b u : ℚ) : ℚ :=
  a + (b - a) * u

/-- One iteration of the random-walk loop body for index `i ≥ 1`
(src/crypto_api.py lines 217-230): a change factor drawn uniformly from
`[-volatility, volatility]`, a convergence bias added when
`i > len(time_points) * 0.8`, then the clamp into
`[0.1 * current, 3.0 * current]`. -/
def priceStep (current : ℚ) (n : ℕ) (volatility : ℚ) (ch : ℕ → ℚ)
    (prev : ℚ) (i : ℕ) : ℚ :=
  let change_factor := uniform (-volatility) volatility (ch i)
  let cf := if (n : ℚ) * (8/10) < (i : ℚ) then
    change_factor + (current - prev) / current * (1/10)
  else change_factor
  min (max (prev * (1 + cf)) (current * (1/10))) (current * 3)

/-- Price at index `i` of the random walk: the start price at index 0,
then one `priceStep` per later index, each from the previous price. -/
def priceAt (current start : ℚ) (n : ℕ) (volatility : ℚ) (ch : ℕ → ℚ) : ℕ → ℚ
  | 0 => start
  | i + 1 => priceStep current n volatility ch (priceAt current start n volatility ch i) (i + 1)

/-- One point of a generated price series: timestamp (seconds), price,
and synthetic volume. -/
structure PricePoint where
  timestamp : ℤ
  price : ℚ
  volume : ℚ
deriving DecidableEq, Inhabited

/-- Embedding of `_generate_realistic_prices`
(src/crypto_api.py lines 196-246).  The random source is split into the
single start draw `u0`, the per-index change draws `ch`, and the
per-index volume draws `vd`; each draw lies in `[0, 1]` and is mapped
through `uniform`.  After the walk, `prices[-1] = current_price`
overwrites the final price (`List.set (n-1)`; the empty-list case, which
would raise IndexError in Python, is unreachable because every timeframe
yields at least 24 time points). -/
def generate_realistic_prices (current_price : ℚ) (time_points : List ℤ)
    (timeframe : String) (u0 : ℚ) (ch : ℕ → ℚ) (vd : ℕ → ℚ) : List PricePoint :=
  let volatility := volatility_map timeframe
  let start_price := current_price * uniform (85/100) (115/100) u0
  let n := time_points.length
  let walk := (List.range n).map (priceAt current_price start_price n volatility ch)
  let prices := walk.set (n - 1) current_price
  (List.range n).map (fun i =>
    { timestamp := time_points.getD i 0
      price := prices.getD i 0
      volume := uniform 1000 10000 (vd i) })

/-- Embedding of `get_price_history` (src/crypto_api.py lines 151-171).
Takes the already-resolved result of `get_current_price`; `if not
current_price:` sends both `None` and the falsy `0.0` to the early
return.  The second component records whether the generation steps
(`_get_time_points` / `_generate_realistic_prices`) were invoked. -/
def get_price_history (current_price : Option ℚ) (timeframe : String)
    (now : ℤ) (u0 : ℚ) (ch : ℕ → ℚ) (vd : ℕ → ℚ) :
    Option (List PricePoint) × Bool :=
  match current_price with
  | none => (none, false)
  | some c =>
    if c = 0 then (none, false)
    else
      let time_points := get_time_points timeframe now
      (some (generate_realistic_prices c time_points timeframe u0 ch vd), true)

/-! ### Chart rendering input cleaning (src/chart_generator.py lines 35-59)

The embedding covers the data-dependent part of `create_price_chart`: the
early empty-input return, the per-point cleaning loop, and the
`len(timestamps) < 2` gate.  Everything after the gate is matplotlib
drawing, summarised by the `drawAttempt` outcome carrying the three lists
the drawing code would receive. -/

/-- State of one field of an incoming data point: absent, present but
unparsable (so `datetime.fromisoformat` / `float` raises), or parsed. -/
inductive Field (α : Type) where
  | missing : Field α
  | bad : Field α
  | val : α → Field α
deriving DecidableEq

/-- One raw point of the series handed to `create_price_chart`:
a timestamp string (parsed to integer seconds), a price and a volume. -/
structure RawPoint where
  timestamp : Field ℤ
  price : Field ℚ
  volume : Field ℚ
deriving DecidableEq

/-- One iteration of the cleaning loop (src/chart_generator.py lines
47-55).  The `try` block appends to `timestamps` before parsing the
price, so a point whose timestamp parses but whose price raises leaves
its timestamp behind; likewise a bad volume leaves timestamp and price
behind.  A missing volume is `point.get('volume', 0)`, i.e. `0`. -/
def cleanStep (acc : List ℤ × List ℚ × List ℚ) (p : RawPoint) :
    List ℤ × List ℚ × List ℚ :=
  match p.timestamp with
  | .missing => acc
  | .bad => acc
  | .val t =>
    let ts := acc.1 ++ [t]
    match p.price with
    | .missing => (ts, acc.2.1, acc.2.2)
    | .bad => (ts, acc.2.1, acc.2.2)
    | .val q =>
      let ps := acc.2.1 ++ [q]
      match p.volume with
      | .missing => (ts, ps, acc.2.2 ++ [0])
      | .bad => (ts, ps, acc.2.2)
      | .val v => (ts, ps, acc.2.2 ++ [v])

/-- Outcome of `create_price_chart` up to the drawing phase: `noData` is
the early `return None` on an empty/falsy input, `insufficient` is the
`len(timestamps) < 2` early `return None`, and `drawAttempt ts ps vs`
means the code reached the matplotlib drawing calls with those cleaned
lists (`ax1.plot(timestamps, prices)` etc.). -/
inductive ChartOutcome where
  | noData : ChartOutcome
  | insufficient : ChartOutcome
  | drawAttempt : List ℤ → List ℚ → List ℚ → ChartOutcome
deriving DecidableEq

/-- Embedding of `create_price_chart` (src/chart_generator.py lines
35-59) up to the drawing phase. -/
def create_price_chart (price_data : List RawPoint) : ChartOutcome :=
  if price_data = [] then .noData
  else
    let cleaned := price_data.foldl cleanStep ([], [], [])
    if cleaned.1.length < 2 then .insufficient
    else .drawAttempt cleaned.1 cleaned.2.1 cleaned.2.2

/-- Modelled from the spec (section 4.2 step 1): a point is valid when it
has a parseable timestamp and a numeric price.  Used to compare the
spec's notion of "valid points after cleaning" with what the code's gate
actually counts. -/
def specValidPoints (l : List RawPoint) : List RawPoint :=
  l.filter (fun p =>
    (match p.timestamp with | .val _ => true | _ => false) &&
    (match p.price with | .val _ => true | _ => false))

/-! ### Helper lemmas -/

theorem truthy_eq_false_iff (r : Option ℚ) :
    truthy r = false ↔ r = none ∨ r = some 0 := by
  cases r with
  | none => simp [truthy]
  | some p => simp [truthy]

theorem truthy_some_ne_zero (r : Option ℚ) (p : ℚ) (ht : truthy r = true)
    (he : r = some p) : p ≠ 0 := by
  subst he
  simpa [truthy] using ht

theorem jupiterFailed_falsy (j : HttpResult JupiterBody) (h : jupiterFailed j) :
    truthy (get_jupiter_price j) = false := by
  cases j with
  | exn => rfl
  | response s body =>
    simp only [jupiterFailed] at h
    rcases h with h | h | h
    · simp [get_jupiter_price, truthy, h]
    · by_cases hs : s = 200 <;> simp [get_jupiter_price, truthy, hs, h]
    · by_cases hs : s = 200 <;> by_cases ha : body.hasAddr <;>
        simp [get_jupiter_price, truthy, hs, ha, h]

theorem dexFailed_falsy (d : HttpResult DexBody) (h : dexFailed d) :
    truthy (get_dexscreener_price d) = false := by
  cases d with
  | exn => rfl
  | response s body =>
    simp only [dexFailed] at h
    rcases h with h | h | h
    · simp [get_dexscreener_price, truthy, h]
    · by_cases hs : s = 200 <;> simp [get_dexscreener_price, truthy, hs, h]
    · by_cases hs : s = 200 <;> by_cases ha : body.pairsNonempty <;>
        simp [get_dexscreener_price, truthy, hs, ha, h]

theorem birdFailed_falsy (b : HttpResult BirdBody) (h : birdFailed b) :
    truthy (get_birdeye_price b) = false := by
  cases b with
  | exn => rfl
  | response s body =>
    simp only [birdFailed] at h
    rcases h with h | h
    · simp [get_birdeye_price, truthy, h]
    · by_cases hs : s = 200 <;> simp [get_birdeye_price, truthy, hs, h]

/-! ### Claims about the provider fallback chain -/

/-- C2: for every sequence of provider outcomes, if Jupiter yields a valid
strictly positive price, `get_current_price` returns that value and
DexScreener and Birdeye are never invoked (invocation count 1). -/
theorem getCurrentPrice_short_circuit (j : HttpResult JupiterBody)
    (d : HttpResult DexBody) (b : HttpResult BirdBody) (p : ℚ)
    (hj : get_jupiter_price j = some p) (hp : 0 < p) :
    get_current_price j d b = (some p, 1) := by
  unfold get_current_price
  rw [hj]
  simp [truthy, hp.ne']

theorem getCurrentPrice_short_circuit_witness :
    get_current_price (.response 200 ⟨true, some 2⟩) .exn .exn = (some 2, 1) :=
  getCurrentPrice_short_circuit _ _ _ 2 rfl (by norm_num)

/-- C3: if all three providers fail (exception, non-2xx status, or missing
field), `get_current_price` returns `None` — and, the embedding being a
total function, never raises to the caller. -/
theorem getCurrentPrice_all_fail (j : HttpResult JupiterBody)
    (d : HttpResult DexBody) (b : HttpResult BirdBody)
    (hj : jupiterFailed j) (hd : dexFailed d) (hb : birdFailed b) :
    get_current_price j d b = (none, 3) := by
  unfold get_current_price
  simp [jupiterFailed_falsy j hj, dexFailed_falsy d hd, birdFailed_falsy b hb]

theorem getCurrentPrice_all_fail_witness :
    get_current_price (.response 500 ⟨true, some 5⟩) .exn
      (.response 200 ⟨false, 9⟩) = (none, 3) :=
  getCurrentPrice_all_fail _ _ _ (Or.inl (by norm_num)) trivial
    (Or.inr rfl)

/-- C4, counterexample: a Jupiter response carrying the strictly negative
price `-1` is not treated as a soft failure (the chain stops at provider 1)
and `get_current_price` returns `-1`, which is not strictly positive.  The
code's truthiness test `if price:` only filters `None` and `0.0`. -/
theorem getCurrentPrice_negative_counterexample :
    get_current_price (.response 200 ⟨true, some (-1)⟩) .exn .exn =
      (some (-1), 1) ∧ ¬ (0 : ℚ) < -1 := by
  exact ⟨by decide, by norm_num⟩

/-- C4, amended: a provider response whose price value is zero or absent
(the falsy cases of `if price:`) is a soft failure for that provider only
and the chain proceeds to the next provider; whenever `get_current_price`
returns a price, that price is nonzero (but not necessarily positive). -/
theorem getCurrentPrice_soft_failure (j : HttpResult JupiterBody)
    (d : HttpResult DexBody) (b : HttpResult BirdBody) :
    ((get_jupiter_price j = none ∨ get_jupiter_price j = some 0) →
      2 ≤ (get_current_price j d b).2) ∧
    ((get_jupiter_price j = none ∨ get_jupiter_price j = some 0) →
      (get_dexscreener_price d = none ∨ get_dexscreener_price d = some 0) →
      (get_current_price j d b).2 = 3) ∧
    (∀ p, (get_current_price j d b).1 = some p → p ≠ 0) := by
  refine ⟨?_, ?_, ?_⟩
  · intro h
    have hf : truthy (get_jupiter_price j) = false := (truthy_eq_false_iff _).mpr h
    unfold get_current_price
    simp only [hf, Bool.false_eq_true, if_false]
    split_ifs <;> norm_num
  · intro h h2
    have hf : truthy (get_jupiter_price j) = false := (truthy_eq_false_iff _).mpr h
    have hf2 : truthy (get_dexscreener_price d) = false := (truthy_eq_false_iff _).mpr h2
    unfold get_current_price
    simp only [hf, hf2, Bool.false_eq_true, if_false]
    split_ifs <;> norm_num
  · intro p hp
    unfold get_current_price at hp
    by_cases h1 : truthy (get_jupiter_price j)
    · simp only [h1, if_true] at hp
      exact truthy_some_ne_zero _ p h1 hp
    · simp only [h1, Bool.false_eq_true, if_false] at hp
      by_cases h2 : truthy (get_dexscreener_price d)
      · simp only [h2, if_true] at hp
        exact truthy_some_ne_zero _ p h2 hp
      · simp only [h2, Bool.false_eq_true, if_false] at hp
        by_cases h3 : truthy (get_birdeye_price b)
        · simp only [h3, if_true] at hp
          exact truthy_some_ne_zero _ p h3 hp
        · simp only [h3, Bool.false_eq_true, if_false] at hp
          exact absurd hp (by simp)

theorem getCurrentPrice_soft_failure_witness :
    2 ≤ (get_current_price (.response 200 ⟨true, some 0⟩) .exn
      (.response 200 ⟨true, 7⟩)).2 ∧
    (get_current_price (.response 200 ⟨true, some 0⟩) .exn
      (.response 200 ⟨true, 7⟩)).2 = 3 ∧ (7 : ℚ) ≠ 0 :=
  ⟨(getCurrentPrice_soft_failure (.response 200 ⟨true, some 0⟩) .exn
      (.response 200 ⟨true, 7⟩)).1 (Or.inr rfl),
   (getCurrentPrice_soft_failure (.response 200 ⟨true, some 0⟩) .exn
      (.response 200 ⟨true, 7⟩)).2.1 (Or.inr rfl) (Or.inl rfl),
   (getCurrentPrice_soft_failure (.response 200 ⟨true, some 0⟩) .exn
      (.response 200 ⟨true, 7⟩)).2.2 7 (by decide)⟩

/-! ### Helper lemmas for the synthetic history -/

theorem getD_range_map {α : Type} (f : ℕ → α) (n i : ℕ) (d : α) (hi : i < n) :
    ((List.range n).map f).getD i d = f i := by
  rw [List.getD_eq_getElem?_getD, List.getElem?_map, List.getElem?_range hi]
  rfl

theorem descRange_map_getD (n k : ℕ) (iv now d : ℤ) (hk : k < n) :
    ((descRange n).map (fun i : ℕ => now - (i : ℤ) * iv)).getD k d =
      now - ((n - 1 - k : ℕ) : ℤ) * iv := by
  unfold descRange
  have h1 : k < (List.range n).reverse.length := by simpa using hk
  rw [List.getD_eq_getElem?_getD, List.getElem?_map, List.getElem?_eq_getElem h1]
  simp [List.getElem_reverse, List.getElem_range]

theorem generate_length (c : ℚ) (tp : List ℤ) (tf : String) (u0 : ℚ)
    (ch vd : ℕ → ℚ) :
    (generate_realistic_prices c tp tf u0 ch vd).length = tp.length := by
  unfold generate_realistic_prices
  simp

theorem generate_getD (c : ℚ) (tp : List ℤ) (tf : String) (u0 : ℚ)
    (ch vd : ℕ → ℚ) (i : ℕ) (hi : i < tp.length) :
    (generate_realistic_prices c tp tf u0 ch vd).getD i default =
      { timestamp := tp.getD i 0
        price := if i = tp.length - 1 then c
          else priceAt c (c * uniform (85/100) (115/100) u0) tp.length
            (volatility_map tf) ch i
        volume := uniform 1000 10000 (vd i) } := by
  unfold generate_realistic_prices
  simp only []
  rw [getD_range_map _ _ _ _ hi]
  congr 1
  by_cases h : i = tp.length - 1
  · subst h
    rw [if_pos rfl, List.getD_eq_getElem?_getD,
      List.getElem?_set_self (by simp; omega)]
    rfl
  · rw [if_neg h, List.getD_eq_getElem?_getD,
      List.getElem?_set_ne (fun he => h he.symm), ← List.getD_eq_getElem?_getD,
      getD_range_map _ _ _ _ hi]

theorem generate_getLast (c : ℚ) (tp : List ℤ) (tf : String) (u0 : ℚ)
    (ch vd : ℕ → ℚ) (hn : tp.length ≠ 0) :
    (generate_realistic_prices c tp tf u0 ch vd).getLast? =
      some { timestamp := tp.getD (tp.length - 1) 0
             price := c
             volume := uniform 1000 10000 (vd (tp.length - 1)) } := by
  have hlen := generate_length c tp tf u0 ch vd
  have h1 : tp.length - 1 < (generate_realistic_prices c tp tf u0 ch vd).length := by
    rw [hlen]; omega
  rw [List.getLast?_eq_getElem?, hlen, List.getElem?_eq_getElem h1]
  have h2 := generate_getD c tp tf u0 ch vd (tp.length - 1) (by omega)
  rw [List.getD_eq_getElem?_getD, List.getElem?_eq_getElem h1] at h2
  simp only [Option.getD_some] at h2
  rw [h2]
  simp

theorem get_price_history_some (c : ℚ) (hc : c ≠ 0) (tf : String) (now : ℤ)
    (u0 : ℚ) (ch vd : ℕ → ℚ) :
    get_price_history (some c) tf now u0 ch vd =
      (some (generate_realistic_prices c (get_time_points tf now) tf u0 ch vd),
        true) := by
  simp [get_price_history, hc]

theorem get_time_points_length_ne_zero (tf : String) (now : ℤ) :
    (get_time_points tf now).length ≠ 0 := by
  unfold get_time_points descRange
  split_ifs <;> simp

/-- Shape of the series returned by `get_price_history` for a timeframe
whose time points are `n` samples at interval `iv` ending at `now`. -/
theorem history_series_spec (tf : String) (c : ℚ) (hc : c ≠ 0) (now : ℤ)
    (u0 : ℚ) (ch vd : ℕ → ℚ) (n : ℕ) (iv : ℤ) (hn : 0 < n) (hiv : 0 < iv)
    (htp : get_time_points tf now =
      (descRange n).map (fun i : ℕ => now - (i : ℤ) * iv)) :
    ∃ series, (get_price_history (some c) tf now u0 ch vd).1 = some series ∧
      series.length = n ∧
      (∀ k, k < n → (series.getD k default).timestamp =
        now - ((n - 1 - k : ℕ) : ℤ) * iv) ∧
      (∀ k, k + 1 < n → (series.getD k default).timestamp <
        (series.getD (k + 1) default).timestamp) ∧
      (∃ pt, series.getLast? = some pt ∧ pt.timestamp = now ∧ pt.price = c) := by
  have hlen : (get_time_points tf now).length = n := by
    rw [htp]; simp [descRange]
  refine ⟨generate_realistic_prices c (get_time_points tf now) tf u0 ch vd,
    by rw [get_price_history_some c hc], ?_, ?_, ?_, ?_⟩
  · rw [generate_length, hlen]
  · intro k hk
    rw [generate_getD c _ tf u0 ch vd k (by omega), htp,
      descRange_map_getD n k iv now 0 hk]
  · intro k hk
    have e1 : (generate_realistic_prices c (get_time_points tf now) tf u0 ch
        vd |>.getD k default).timestamp = now - ((n - 1 - k : ℕ) : ℤ) * iv := by
      rw [generate_getD c _ tf u0 ch vd k (by omega), htp,
        descRange_map_getD n k iv now 0 (by omega)]
    have e2 : (generate_realistic_prices c (get_time_points tf now) tf u0 ch
        vd |>.getD (k + 1) default).timestamp =
        now - ((n - 1 - (k + 1) : ℕ) : ℤ) * iv := by
      rw [generate_getD c _ tf u0 ch vd (k + 1) (by omega), htp,
        descRange_map_getD n (k + 1) iv now 0 (by omega)]
    rw [e1, e2]
    have hab : ((n - 1 - (k + 1) : ℕ) : ℤ) < ((n - 1 - k : ℕ) : ℤ) := by
      omega
    have := mul_lt_mul_of_pos_right hab hiv
    omega
  · refine ⟨_, generate_getLast c _ tf u0 ch vd (by omega), ?_, rfl⟩
    show (get_time_points tf now).getD ((get_time_points tf now).length - 1) 0 = now
    rw [hlen, htp, descRange_map_getD n (n - 1) iv now 0 (by omega)]
    have h0 : (n - 1 - (n - 1) : ℕ) = 0 := by omega
    rw [h0]
    simp

/-- Variant of `history_series_spec` with every index bound phrased via
`series.length`, convenient for instantiating the claims. -/
theorem history_shape_aux (tf : String) (c : ℚ) (hc : c ≠ 0) (now : ℤ)
    (u0 : ℚ) (ch vd : ℕ → ℚ) (n : ℕ) (iv : ℤ) (hn : 0 < n) (hiv : 0 < iv)
    (htp : get_time_points tf now =
      (descRange n).map (fun i : ℕ => now - (i : ℤ) * iv)) :
    ∃ series, (get_price_history (some c) tf now u0 ch vd).1 = some series ∧
      series.length = n ∧
      (∀ k, k + 1 < series.length → (series.getD k default).timestamp <
        (series.getD (k + 1) default).timestamp) ∧
      (∀ k, k < series.length → (series.getD k default).timestamp =
        now - ((series.length - 1 - k : ℕ) : ℤ) * iv) ∧
      (∃ pt, series.getLast? = some pt ∧ pt.timestamp = now ∧ pt.price = c) := by
  obtain ⟨series, h1, h2, h3, h4, h5⟩ :=
    history_series_spec tf c hc now u0 ch vd n iv hn hiv htp
  refine ⟨series, h1, h2, ?_, ?_, h5⟩
  · intro k hk
    rw [h2] at hk
    exact h4 k hk
  · intro k hk
    rw [h2] at hk ⊢
    exact h3 k hk

/-! ### Claims about the synthetic history -/

/-- C1: for every timeframe in the table and every strictly positive
resolved current price, the series returned by `get_price_history` has its
final point's price exactly equal to the resolved current price. -/
theorem history_anchoring (tf : String)
    (htf : tf ∈ (["1d", "7d", "30d", "90d", "1y"] : List String))
    (c : ℚ) (hc : 0 < c) (now : ℤ) (u0 : ℚ) (ch vd : ℕ → ℚ) :
    ∃ series, (get_price_history (some c) tf now u0 ch vd).1 = some series ∧
      ∃ pt, series.getLast? = some pt ∧ pt.price = c := by
  have hc' : c ≠ 0 := hc.ne'
  have ext : ∀ (n : ℕ) (iv : ℤ), 0 < n → 0 < iv →
      get_time_points tf now =
        (descRange n).map (fun i : ℕ => now - (i : ℤ) * iv) →
      ∃ series, (get_price_history (some c) tf now u0 ch vd).1 = some series ∧
        ∃ pt, series.getLast? = some pt ∧ pt.price = c := by
    intro n iv h1 h2 h3
    obtain ⟨series, ha, _, _, _, pt, hb, _, hd⟩ :=
      history_series_spec tf c hc' now u0 ch vd n iv h1 h2 h3
    exact ⟨series, ha, pt, hb, hd⟩
  fin_cases htf
  · exact ext 24 3600 (by norm_num) (by norm_num) rfl
  · exact ext 168 3600 (by norm_num) (by norm_num) rfl
  · exact ext 30 86400 (by norm_num) (by norm_num) rfl
  · exact ext 90 86400 (by norm_num) (by norm_num) rfl
  · exact ext 365 86400 (by norm_num) (by norm_num) rfl

theorem history_anchoring_witness :
    ("1d" : String) ∈ (["1d", "7d", "30d", "90d", "1y"] : List String) ∧
    (0 : ℚ) < 1 ∧
    ∃ series,
      (get_price_history (some 1) "1d" 0 0 (fun _ => 0) (fun _ => 0)).1 =
        some series ∧ ∃ pt, series.getLast? = some pt ∧ pt.price = 1 :=
  ⟨by decide, by norm_num,
    history_anchoring "1d" (by decide) 1 (by norm_num) 0 0 (fun _ => 0)
      (fun _ => 0)⟩

/-- C5: for every timeframe in the table, the series returned by
`get_price_history` has exactly the mandated point count (1d → 24,
7d → 168, 30d → 30, 90d → 90, 1y → 365), strictly ascending timestamps
spaced backward from now at the timeframe's interval (hourly for 1d/7d,
daily otherwise), the last timestamp being now. -/
theorem history_point_counts (tf : String)
    (htf : tf ∈ (["1d", "7d", "30d", "90d", "1y"] : List String))
    (c : ℚ) (hc : 0 < c) (now : ℤ) (u0 : ℚ) (ch vd : ℕ → ℚ) :
    ∃ series, (get_price_history (some c) tf now u0 ch vd).1 = some series ∧
      series.length = (if tf = "1d" then 24 else if tf = "7d" then 168
        else if tf = "30d" then 30 else if tf = "90d" then 90 else 365) ∧
      (∀ k, k + 1 < series.length → (series.getD k default).timestamp <
        (series.getD (k + 1) default).timestamp) ∧
      (∀ k, k < series.length → (series.getD k default).timestamp =
        now - ((series.length - 1 - k : ℕ) : ℤ) *
          (if tf = "1d" ∨ tf = "7d" then 3600 else 86400)) ∧
      (∃ pt, series.getLast? = some pt ∧ pt.timestamp = now) := by
  have hc' : c ≠ 0 := hc.ne'
  fin_cases htf
  · obtain ⟨series, h1, h2, h3, h4, pt, h5, h6, _⟩ :=
      history_shape_aux "1d" c hc' now u0 ch vd 24 3600
        (by norm_num) (by norm_num) rfl
    exact ⟨series, h1, by simpa using h2, h3, by simpa using h4, pt, h5, h6⟩
  · obtain ⟨series, h1, h2, h3, h4, pt, h5, h6, _⟩ :=
      history_shape_aux "7d" c hc' now u0 ch vd 168 3600
        (by norm_num) (by norm_num) rfl
    exact ⟨series, h1, by simpa using h2, h3, by simpa using h4, pt, h5, h6⟩
  · obtain ⟨series, h1, h2, h3, h4, pt, h5, h6, _⟩ :=
      history_shape_aux "30d" c hc' now u0 ch vd 30 86400
        (by norm_num) (by norm_num) rfl
    exact ⟨series, h1, by simpa using h2, h3, by simpa using h4, pt, h5, h6⟩
  · obtain ⟨series, h1, h2, h3, h4, pt, h5, h6, _⟩ :=
      history_shape_aux "90d" c hc' now u0 ch vd 90 86400
        (by norm_num) (by norm_num) rfl
    exact ⟨series, h1, by simpa using h2, h3, by simpa using h4, pt, h5, h6⟩
  · obtain ⟨series, h1, h2, h3, h4, pt, h5, h6, _⟩ :=
      history_shape_aux "1y" c hc' now u0 ch vd 365 86400
        (by norm_num) (by norm_num) rfl
    exact ⟨series, h1, by simpa using h2, h3, by simpa using h4, pt, h5, h6⟩

theorem history_point_counts_witness :
    ("30d" : String) ∈ (["1d", "7d", "30d", "90d", "1y"] : List String) ∧
    (0 : ℚ) < 2 ∧
    ∃ series,
      (get_price_history (some 2) "30d" 0 0 (fun _ => 0) (fun _ => 0)).1 =
        some series ∧
      series.length = (if ("30d" : String) = "1d" then 24
        else if ("30d" : String) = "7d" then 168
        else if ("30d" : String) = "30d" then 30
        else if ("30d" : String) = "90d" then 90 else 365) ∧
      (∀ k, k + 1 < series.length → (series.getD k default).timestamp <
        (series.getD (k + 1) default).timestamp) ∧
      (∀ k, k < series.length → (series.getD k default).timestamp =
        (0 : ℤ) - ((series.length - 1 - k : ℕ) : ℤ) *
          (if ("30d" : String) = "1d" ∨ ("30d" : String) = "7d"
            then 3600 else 86400)) ∧
      (∃ pt, series.getLast? = some pt ∧ pt.timestamp = 0) :=
  ⟨by decide, by norm_num,
    history_point_counts "30d" (by decide) 2 (by norm_num) 0 0 (fun _ => 0)
      (fun _ => 0)⟩

/-- C7: for every timeframe, if `get_current_price` returned `None`, then
`get_price_history` returns `None` and the generation steps are not
invoked (second component `false`). -/
theorem history_propagates_notfound (j : HttpResult JupiterBody)
    (d : HttpResult DexBody) (b : HttpResult BirdBody) (tf : String)
    (now : ℤ) (u0 : ℚ) (ch vd : ℕ → ℚ)
    (h : (get_current_price j d b).1 = none) :
    get_price_history (get_current_price j d b).1 tf now u0 ch vd =
      (none, false) := by
  rw [h]
  rfl

theorem history_propagates_notfound_witness :
    (get_current_price .exn .exn .exn).1 = none ∧
    get_price_history (get_current_price .exn .exn .exn).1 "1d" 0 0
      (fun _ => 0) (fun _ => 0) = (none, false) :=
  ⟨rfl, history_propagates_notfound .exn .exn .exn "1d" 0 0 (fun _ => 0)
    (fun _ => 0) rfl⟩

/-- C10: for every timeframe token outside the table, `get_price_history`
does not reject the input: it returns a 168-point hourly series (the
7-day shape), while the volatility coefficient used by the generator is
the default 0.05 rather than the 7-day value 0.03. -/
theorem history_unknown_timeframe (tf : String) (h1 : tf ≠ "1d")
    (h7 : tf ≠ "7d") (h30 : tf ≠ "30d") (h90 : tf ≠ "90d") (h1y : tf ≠ "1y")
    (c : ℚ) (hc : 0 < c) (now : ℤ) (u0 : ℚ) (ch vd : ℕ → ℚ) :
    (∃ series, (get_price_history (some c) tf now u0 ch vd).1 = some series ∧
      series.length = 168 ∧
      (∀ k, k < series.length → (series.getD k default).timestamp =
        now - ((series.length - 1 - k : ℕ) : ℤ) * 3600)) ∧
    volatility_map tf = 5/100 ∧ volatility_map "7d" = 3/100 := by
  have hc' : c ≠ 0 := hc.ne'
  refine ⟨?_, ?_, by simp [volatility_map]⟩
  · obtain ⟨series, ha, hb, _, hd, _⟩ :=
      history_shape_aux tf c hc' now u0 ch vd 168 3600 (by norm_num)
        (by norm_num) (by simp [get_time_points, h1, h7, h30, h90, h1y])
    exact ⟨series, ha, hb, hd⟩
  · simp [volatility_map, h1, h7, h30, h90, h1y]

theorem history_unknown_timeframe_witness :
    ("3d" : String) ≠ "1d" ∧
    ((∃ series,
      (get_price_history (some 1) "3d" 0 0 (fun _ => 0) (fun _ => 0)).1 =
        some series ∧ series.length = 168 ∧
      (∀ k, k < series.length → (series.getD k default).timestamp =
        (0 : ℤ) - ((series.length - 1 - k : ℕ) : ℤ) * 3600)) ∧
    volatility_map "3d" = 5/100 ∧ volatility_map "7d" = 3/100) :=
  ⟨by decide,
    history_unknown_timeframe "3d" (by decide) (by decide) (by decide)
      (by decide) (by decide) 1 (by norm_num) 0 0 (fun _ => 0) (fun _ => 0)⟩

/-! ### Clamping of generated prices -/

theorem clamp_bounds (c p : ℚ) (hc : 0 < c) :
    c * (1/10) ≤ min (max p (c * (1/10))) (c * 3) ∧
    min (max p (c * (1/10))) (c * 3) ≤ c * 3 := by
  refine ⟨le_min (le_max_right _ _) (by nlinarith), min_le_right _ _⟩

theorem priceAt_clamped (c start : ℚ) (hc : 0 < c) (n : ℕ) (vol : ℚ)
    (ch : ℕ → ℚ) (i : ℕ) (hi : i ≠ 0) :
    c * (1/10) ≤ priceAt c start n vol ch i ∧
    priceAt c start n vol ch i ≤ c * 3 := by
  cases i with
  | zero => cases hi rfl
  | succ k =>
    simp only [priceAt, priceStep]
    exact clamp_bounds c _ hc

theorem start_price_bounds (c u0 : ℚ) (hc : 0 < c) (h0 : 0 ≤ u0)
    (h1 : u0 ≤ 1) :
    c * (1/10) ≤ c * uniform (85/100) (115/100) u0 ∧
    c * uniform (85/100) (115/100) u0 ≤ c * 3 := by
  unfold uniform
  constructor <;> nlinarith

/-- C6: for every timeframe, every strictly positive current price and
every draw of the random source, every price at every index of the series
produced by `_generate_realistic_prices` lies within
`[0.1 * current, 3.0 * current]` — including the randomly chosen start
price at index 0 and the bias-adjusted points in the final 20% of
indices. -/
theorem price_clamping (tf : String) (c : ℚ) (hc : 0 < c) (now : ℤ)
    (u0 : ℚ) (hu0 : 0 ≤ u0) (hu1 : u0 ≤ 1) (ch vd : ℕ → ℚ) (i : ℕ)
    (hi : i < (generate_realistic_prices c (get_time_points tf now) tf u0 ch
      vd).length) :
    c * (1/10) ≤ ((generate_realistic_prices c (get_time_points tf now) tf
      u0 ch vd).getD i default).price ∧
    ((generate_realistic_prices c (get_time_points tf now) tf u0 ch
      vd).getD i default).price ≤ c * 3 := by
  rw [generate_length] at hi
  rw [generate_getD c _ tf u0 ch vd i hi]
  dsimp only
  by_cases h : i = (get_time_points tf now).length - 1
  · rw [if_pos h]
    constructor <;> nlinarith
  · rw [if_neg h]
    cases i with
    | zero =>
      simp only [priceAt]
      exact start_price_bounds c u0 hc hu0 hu1
    | succ k =>
      exact priceAt_clamped c _ hc _ _ ch (k + 1) (Nat.succ_ne_zero k)

theorem price_clamping_witness :
    (0 : ℚ) < 1 ∧ (0 : ℚ) ≤ 0 ∧ (0 : ℚ) ≤ 1 ∧
    ((1 : ℚ) * (1/10) ≤ ((generate_realistic_prices 1 (get_time_points "1d" 0)
        "1d" 0 (fun _ => 0) (fun _ => 0)).getD 0 default).price ∧
      ((generate_realistic_prices 1 (get_time_points "1d" 0) "1d" 0
        (fun _ => 0) (fun _ => 0)).getD 0 default).price ≤ 1 * 3) :=
  ⟨by norm_num, le_refl 0, by norm_num,
    price_clamping "1d" 1 (by norm_num) 0 0 (le_refl 0) (by norm_num)
      (fun _ => 0) (fun _ => 0) 0 (by decide)⟩

/-! ### Claims about chart input cleaning -/

/-- C8, evaluation at the failing input: two points with parseable
timestamps but non-numeric prices yield 0 valid points after cleaning
(`specValidPoints` is empty), yet the cleaning loop has already appended
both timestamps before the price parse raised, so the
`len(timestamps) < 2` gate passes and the drawing phase is entered with
desynchronized lists (2 timestamps, 0 prices) instead of returning
before any drawing step. -/
theorem chart_gate_counts_timestamps :
    create_price_chart [⟨.val 0, .bad, .missing⟩, ⟨.val 3600, .bad, .missing⟩]
      = .drawAttempt [0, 3600] [] [] ∧
    specValidPoints [⟨.val 0, .bad, .missing⟩, ⟨.val 3600, .bad, .missing⟩]
      = [] :=
  ⟨rfl, rfl⟩

/-- C9, evaluation at the failing input: with one malformed point among
two valid ones, the behaviour depends on which field is malformed.  First
conjunct: a point with a parseable timestamp but non-numeric price among
two valid points leaves a stray timestamp, so the drawing phase receives
3 timestamps but only 2 prices — the render cannot succeed using only the
valid points.  Second conjunct: a point with an unparsable timestamp is
skipped atomically and the drawing phase receives exactly the two valid
points, with a missing volume defaulting to 0. -/
theorem chart_malformed_point_eval :
    create_price_chart [⟨.val 0, .val 1, .val 5⟩, ⟨.val 3600, .bad, .missing⟩,
        ⟨.val 7200, .val 2, .missing⟩]
      = .drawAttempt [0, 3600, 7200] [1, 2] [5, 0] ∧
    create_price_chart [⟨.val 0, .val 1, .val 5⟩, ⟨.bad, .val 9, .val 9⟩,
        ⟨.val 7200, .val 2, .missing⟩]
      = .drawAttempt [0, 7200] [1, 2] [5, 0] :=
  ⟨rfl, rfl⟩

end RocketBot
